import Mathlib

/-!
Verification development for the email-analysis pipeline
(`supabase_service.py`, `email_reply_service.py`, `calendar_handler.py`,
`calender_services.py`, `summarization_service.py`).

The Python functions relevant to the claims are shallowly embedded as
executable Lean definitions.  Strings model Python `str`, `PyVal`/`PyDict`
model the JSON-ish dictionaries passed around, `Option` models raised
exceptions on the paths where the source catches them, and the current
wall-clock instant (`datetime.now()`) is passed explicitly as a `Clock`.
-/

namespace EmailPipeline

/-! String primitives.  Core `String.splitOn`, `trim`, `toLower` are
implemented by well-founded recursion on byte positions and do not reduce
inside the kernel, so the Python string operations are re-implemented here
structurally over `List Char` (with a fuel argument where a split skips more
than one character), keeping every definition evaluable by `decide`/`rfl`. -/

/-- Does `pat` occur as a prefix of `cs`? -/
def lcStartsWith : List Char → List Char → Bool
  | [], _ => true
  | _ :: _, [] => false
  | p :: ps, c :: cs => p == c && lcStartsWith ps cs

/-- Python `s.split(pat)` over char lists (`pat` non-empty, as at every call
site); `fuel` bounds the number of consumed characters. -/
def lcSplitOn (pat : List Char) : Nat → List Char → List Char → List (List Char)
  | 0, s, acc => [acc.reverse ++ s]
  | fuel + 1, s, acc =>
    match s with
    | [] => [acc.reverse]
    | c :: cs =>
      if lcStartsWith pat s then
        acc.reverse :: lcSplitOn pat fuel (s.drop pat.length) []
      else
        lcSplitOn pat fuel cs (c :: acc)

/-- Python `s.split(pat)` for a non-empty separator. -/
def pySplit (s pat : String) : List String :=
  (lcSplitOn pat.toList s.toList.length s.toList []).map String.mk

/-- The whitespace characters stripped by Python `str.strip()` (those that
occur in this pipeline's data). -/
def isWS (c : Char) : Bool := c == ' ' || c == '\t' || c == '\n' || c == '\r'

/-- Python `s.strip()`. -/
def pyTrim (s : String) : String :=
  String.mk (((s.toList.dropWhile isWS).reverse.dropWhile isWS).reverse)

/-- ASCII lower-casing of one character. -/
def lcLower (c : Char) : Char :=
  if 'A' ≤ c && c ≤ 'Z' then Char.ofNat (c.toNat + 32) else c

/-- Python `s.lower()`. -/
def pyLower (s : String) : String := String.mk (s.toList.map lcLower)

/-- Python `s.endswith(pat)`. -/
def pyEndsWith (s pat : String) : Bool :=
  lcStartsWith pat.toList.reverse s.toList.reverse

/-- Python `s[:-n]`. -/
def pyDropRight (s : String) : Nat → String :=
  fun n => String.mk ((s.toList.reverse.drop n).reverse)

/-- Python `sub in s` for a non-empty pattern: true iff `s.split(sub)` has
more than one piece. -/
def containsSub (s pat : String) : Bool := (pySplit s pat).length != 1

/-- Python `s.split(pat)[1]` (the piece between the first and second
occurrence of `pat`); callers guard on `containsSub` first, exactly as the
source guards with `in` before indexing. -/
def afterFirst (s pat : String) : String := (pySplit s pat).getD 1 ""

/-- Python `s.split(pat)[0]` (the piece before the first occurrence). -/
def beforeFirst (s pat : String) : String := (pySplit s pat).headD ""

/-- Python `line.split(sep, 1)` restricted to `sep = ":"`: the part before
the first colon and everything after it. -/
def splitColon1 (line : String) : String × String :=
  match pySplit line ":" with
  | [] => (line, "")
  | h :: t => (h, String.intercalate ":" t)

/-- Python `s.strip('[]')`: remove leading and trailing `[` / `]` characters. -/
def stripBrackets (s : String) : String :=
  let isBrk : Char → Bool := fun c => c == '[' || c == ']'
  let cs := s.toList.dropWhile isBrk
  String.mk ((cs.reverse.dropWhile isBrk).reverse)

/-- Python `filter(str.isdigit, value)`: the digit characters of a string,
in order. -/
def digitChars (s : String) : List Char := s.toList.filter Char.isDigit

/-- Numeric value of a digit string. -/
def digitVal (cs : List Char) : Nat := cs.foldl (fun n c => n * 10 + (c.toNat - 48)) 0

/-- Python `int(''.join(cs))` for a list of digit characters: fails (raises
`ValueError`) on the empty string. -/
def intOfDigits (cs : List Char) : Option Nat :=
  if cs.isEmpty then none else some (digitVal cs)

/-- Python `s.isdigit()`-style check used by the strptime models: non-empty
and all digits. -/
def allDigits (s : String) : Bool := s.length > 0 && s.toList.all Char.isDigit

/-- Python `int(s)` on a string: strips whitespace, then requires a run of
digits (the source never feeds signed numbers here). -/
def pyInt (s : String) : Option Nat :=
  let t := pyTrim s
  if allDigits t then some (digitVal t.toList) else none

/-- Two-digit zero padding, Python `f"{n:02d}"`. -/
def pad2 (n : Nat) : String := if n < 10 then "0" ++ toString n else toString n

/-- Four-digit zero padding for years, Python `%Y` rendering. -/
def pad4 (n : Nat) : String :=
  if n < 10 then "000" ++ toString n
  else if n < 100 then "00" ++ toString n
  else if n < 1000 then "0" ++ toString n
  else toString n

/-- The apostrophe character. -/
def apos : Char := Char.ofNat 39

/-- The literal `o'clock` searched for by the time normalizers. -/
def oclockStr : String := "o" ++ apos.toString ++ "clock"

/-- Values stored in the parsed action-data dictionaries: strings, lists of
strings (participants), or integers (the handler writes `30` as an `int`). -/
inductive PyVal where
  | s : String → PyVal
  | l : List String → PyVal
  | n : Nat → PyVal
deriving DecidableEq

/-- Python `dict` with string keys, as an insertion-ordered association list. -/
abbrev PyDict := List (String × PyVal)

/-- Python `d[k]` / `d.get(k)`: first (unique) binding of `k`. -/
def dget : PyDict → String → Option PyVal
  | [], _ => none
  | p :: rest, k => if p.1 == k then some p.2 else dget rest k

/-- Python `k in d`. -/
def dhas (d : PyDict) (k : String) : Bool := (dget d k).isSome

/-- Python `d[k] = v`: replace the binding in place, or append a new one. -/
def dset : PyDict → String → PyVal → PyDict
  | [], k, v => [(k, v)]
  | p :: rest, k, v => if p.1 == k then (k, v) :: rest else p :: dset rest k v

/-- A calendar date (`datetime.date`). -/
structure Date where
  year : Nat
  month : Nat
  day : Nat
deriving DecidableEq

/-- Gregorian leap-year rule, as in `datetime`. -/
def isLeap (y : Nat) : Bool := (y % 4 == 0 && y % 100 != 0) || (y % 400 == 0)

/-- Days in a Gregorian month. -/
def daysInMonth (y m : Nat) : Nat :=
  if m == 2 then (if isLeap y then 29 else 28)
  else if m == 4 || m == 6 || m == 9 || m == 11 then 30
  else 31

/-- `date + timedelta(days=1)`. -/
def nextDay (d : Date) : Date :=
  if d.day < daysInMonth d.year d.month then ⟨d.year, d.month, d.day + 1⟩
  else if d.month < 12 then ⟨d.year, d.month + 1, 1⟩
  else ⟨d.year + 1, 1, 1⟩

/-- `strftime('%Y-%m-%d')`. -/
def isoDate (d : Date) : String := pad4 d.year ++ "-" ++ pad2 d.month ++ "-" ++ pad2 d.day

/-- The current instant, the explicit stand-in for `datetime.now()`. -/
structure Clock where
  date : Date
  hour : Nat
  minute : Nat

/-- `datetime.now().strftime('%H:%M')`. -/
def clockHM (c : Clock) : String := pad2 c.hour ++ ":" ++ pad2 c.minute

/-- Lower-case month names accepted by `strptime`'s `%B`. -/
def monthNames : List String :=
  ["january", "february", "march", "april", "may", "june", "july",
   "august", "september", "october", "november", "december"]

/-- Month number from a `%B` month-name token (case-insensitive). -/
def monthIndex (s : String) : Option Nat :=
  (monthNames.indexOf? (pyLower s)).map (· + 1)

/-- `datetime.strptime(s, "%dth %B %Y")`: `none` models the `ValueError`. -/
def parseOrdinalDate (s : String) : Option Date :=
  match pySplit s " " with
  | [dtok, mtok, ytok] =>
    if pyEndsWith dtok "th" then
      let ds := pyDropRight dtok 2
      if allDigits ds && ds.length ≤ 2 then
        match monthIndex mtok with
        | some m =>
          if allDigits ytok && ytok.length ≤ 4 then
            let d := digitVal ds.toList
            let y := digitVal ytok.toList
            if 1 ≤ d && d ≤ daysInMonth y m then some ⟨y, m, d⟩ else none
          else none
        | none => none
      else none
    else none
  | _ => none

/-- `strptime(s, "%Y-%m-%d")`-shaped date component of the combined parse. -/
def parseIsoDate (s : String) : Option Date :=
  match pySplit s "-" with
  | [ys, ms, ds] =>
    if allDigits ys && ys.length ≤ 4 && allDigits ms && ms.length ≤ 2 &&
        allDigits ds && ds.length ≤ 2 then
      let y := digitVal ys.toList
      let m := digitVal ms.toList
      let d := digitVal ds.toList
      if 1 ≤ m && m ≤ 12 && 1 ≤ d && d ≤ daysInMonth y m then some ⟨y, m, d⟩ else none
    else none
  | _ => none

/-- `%H:%M` component of the combined parse. -/
def parseHM (s : String) : Option (Nat × Nat) :=
  match pySplit s ":" with
  | [hs, ms] =>
    if allDigits hs && hs.length ≤ 2 && allDigits ms && ms.length ≤ 2 then
      let h := digitVal hs.toList
      let m := digitVal ms.toList
      if h ≤ 23 && m ≤ 59 then some (h, m) else none
    else none
  | _ => none

/-- `datetime.strptime(s, "%Y-%m-%d %H:%M")`: `none` models the `ValueError`. -/
def parseDateTimeHM (s : String) : Option (Date × Nat × Nat) :=
  match pySplit s " " with
  | [dpart, tpart] =>
    match parseIsoDate dpart, parseHM tpart with
    | some d, some hm => some (d, hm.1, hm.2)
    | _, _ => none
  | _ => none

/-- `datetime.strptime(s, '%I:%M %p')` followed by `strftime('%H:%M')` input
side: yields the 24-hour `(hour, minute)`; `none` models the `ValueError`. -/
def parse12Hour (s : String) : Option (Nat × Nat) :=
  match pySplit s " " with
  | [hm, ap] =>
    match pySplit hm ":" with
    | [hs, ms] =>
      if allDigits hs && hs.length ≤ 2 && allDigits ms && ms.length ≤ 2 &&
          (pyLower ap == "am" || pyLower ap == "pm") then
        let h := digitVal hs.toList
        let m := digitVal ms.toList
        if 1 ≤ h && h ≤ 12 && m ≤ 59 then
          some ((if pyLower ap == "pm" then (if h == 12 then 12 else h + 12)
                 else (if h == 12 then 0 else h)), m)
        else none
      else none
    | _ => none
  | _ => none

/-- Render an `(hour, minute)` pair as `strftime('%H:%M')` does. -/
def renderHM (hm : Nat × Nat) : String := pad2 hm.1 ++ ":" ++ pad2 hm.2

/-! ## Reply Dispatcher (`email_reply_service.py`, `EmailReplyService`)

`send_reply` wraps its whole body in `try/except` and returns a `Bool`, so
the `except`/`time.sleep` arm inside `process_reply`'s retry loop is
unreachable; each attempt is modelled as the pair
(result, whether the Gmail send call was reached).  The interactive
confirmation prompt is modelled by the per-attempt user input string. -/

/-- `self.max_retries = 3`. -/
def maxRetries : Nat := 3

/-- `self.retry_delay = 60` seconds (the backoff sleep; dead code, since
`send_reply` never raises). -/
def retryDelay : Nat := 60

/-- `confirm = input(...).strip().lower()` followed by
`confirm not in ['y', 'yes']` (negated). -/
def confirmAccepted (userInput : String) : Bool :=
  ["y", "yes"].contains (pyLower (pyTrim userInput))

/-- `EmailReplyService.send_reply` for one attempt: a declined confirmation
returns `False` without reaching the provider send; otherwise the provider
call's outcome (`transmitOk`, with exceptions caught and logged as `False`)
is returned.  Second component: whether the provider send was reached. -/
def sendReply (requireConf : Bool) (userInput : String) (transmitOk : Bool) :
    Bool × Bool :=
  if requireConf && !confirmAccepted userInput then (false, false)
  else (transmitOk, true)

/-- The `email_replies` row as far as `process_reply` mutates it. -/
structure ReplyRecord where
  status : String
  sent_at : Option Nat
  error_message : Option String
deriving DecidableEq

/-- `store_reply` creates the row with `status = "PENDING"`. -/
def storedReply : ReplyRecord := ⟨"PENDING", none, none⟩

/-- `EmailReplyService.update_reply_status`: `sent_at` is set only for
`SENT`, `error_message` to the given message (default `None`). -/
def updateReplyStatus (r : ReplyRecord) (status : String) (err : Option String)
    (now : Nat) : ReplyRecord :=
  { r with status := status,
           sent_at := if status == "SENT" then some now else none,
           error_message := err }

/-- Outcome of the `for attempt in range(self.max_retries)` loop. -/
structure SendLoopResult where
  success : Bool
  sendCalls : Nat
  transmissions : Nat
deriving DecidableEq

/-- The retry loop of `process_reply`: attempt `i`, then `i+1`, ... while
fuel remains, stopping at the first successful `send_reply`. -/
def sendLoop (requireConf : Bool) (inputs : Nat → String) (transmit : Nat → Bool) :
    Nat → Nat → SendLoopResult
  | _, 0 => ⟨false, 0, 0⟩
  | i, fuel + 1 =>
    let r := sendReply requireConf (inputs i) (transmit i)
    if r.1 then ⟨true, 1, 1⟩
    else
      let rest := sendLoop requireConf inputs transmit (i + 1) fuel
      ⟨rest.success, rest.sendCalls + 1, rest.transmissions + (if r.2 then 1 else 0)⟩

/-- Result of `process_reply` from the point where the `ReplyRecord` has been
stored and the message built: the returned `Bool`, the final row, and the
attempt counts. -/
structure ReplyRunResult where
  success : Bool
  record : ReplyRecord
  sendCalls : Nat
  transmissions : Nat
deriving DecidableEq

/-- `EmailReplyService.process_reply`, send phase: run the retry loop; on a
success mark the row `SENT` and return `True`; once all retries fail mark it
`FAILED` with `f"Failed after {self.max_retries} attempts"` and return
`False`. -/
def processReplySend (requireConf : Bool) (inputs : Nat → String)
    (transmit : Nat → Bool) (now : Nat) : ReplyRunResult :=
  let r := sendLoop requireConf inputs transmit 0 maxRetries
  if r.success then
    ⟨true, updateReplyStatus storedReply "SENT" none now, r.sendCalls, r.transmissions⟩
  else
    ⟨false,
     updateReplyStatus storedReply "FAILED"
       (some ("Failed after " ++ toString maxRetries ++ " attempts")) now,
     r.sendCalls, r.transmissions⟩

/-! ## Action-Data Extractor (`supabase_service.py`)

Two implementations share the name in the source: the method
`SupabaseService.extract_action_data` (anchored on `Action Data:`, with
per-key transforms and a required-field check) and the module-level
`extract_action_data` (anchored on `### ACTION_DATA`, no transforms, no
required-field check), which is the one the module-level
`store_analysis_in_supabase` calls. -/

/-- `participants` transform of `SupabaseService.extract_action_data`:
`[e.strip() for e in value.strip('[]').split(',') if '@' in e]`. -/
def parseParticipants (value : String) : List String :=
  (pySplit (stripBrackets value) ",").filterMap
    (fun e => if containsSub e "@" then some (pyTrim e) else none)

/-- `participants` transform of `SupabaseService.store_analysis_in_supabase`
(line 127): same, but also requiring `email.strip()` to be non-empty. -/
def storeParticipants (value : String) : List String :=
  (pySplit (stripBrackets value) ",").filterMap
    (fun e => if containsSub e "@" && pyTrim e != "" then some (pyTrim e) else none)

/-- `duration_minutes` transform:
`str(int(''.join(filter(str.isdigit, value))))`, defaulting to `'60'` when
`int` raises `ValueError` (no digits at all). -/
def durationValue (value : String) : String :=
  match intOfDigits (digitChars value) with
  | some k => toString k
  | none => "60"

/-- The first maximal run of digit characters in a string. -/
def firstDigitRun (value : String) : List Char :=
  (value.toList.dropWhile (fun c => !c.isDigit)).takeWhile Char.isDigit

/-- Modelled from the spec (and from the extractor's own comment
`Extract number from string like "60 (assuming a 1-hour meeting)"`): the
duration transform as documented, taking the FIRST run of digits in the
value, defaulting to `'60'`. -/
def specDurationValue (value : String) : String :=
  match intOfDigits (firstDigitRun value) with
  | some k => toString k
  | none => "60"

/-- The required fields checked by `SupabaseService.extract_action_data`. -/
def requiredFields : List String := ["date", "time", "title", "description"]

/-- The key/value parsing loop of `SupabaseService.extract_action_data`
over the `Action Data:` .. `Thread Context:` section. -/
def extractParsedDict (text : String) : PyDict :=
  let actionSection := beforeFirst (afterFirst text "Action Data:") "Thread Context:"
  (pySplit (pyTrim actionSection) "\n").foldl (fun d line =>
    if containsSub line ":" then
      let kv := splitColon1 line
      let k := pyTrim kv.1
      let v := pyTrim kv.2
      if k == "participants" then dset d k (PyVal.l (parseParticipants v))
      else if k == "duration_minutes" then dset d k (PyVal.s (durationValue v))
      else dset d k (PyVal.s v)
    else d) []

/-- `SupabaseService.extract_action_data`: `None` when the `Action Data:`
marker is absent or any required field is missing from the parsed mapping. -/
def extractActionData (text : String) : Option PyDict :=
  if containsSub text "Action Data:" then
    let d := extractParsedDict text
    if requiredFields.all (fun f => dhas d f) then some d else none
  else none

/-- The per-action body of `update_calendar_actions.py`: the `action_data`
update payload written for a row, `none` when extraction failed (the row is
only logged and skipped). -/
def updateActionWrite (insights : String) : Option PyDict :=
  match extractActionData insights with
  | some d => some d
  | none => none

/-- Module-level `extract_action_data`: first `###`-delimited section
containing `ACTION_DATA`, parsed as `key: value` lines with no transforms
and no required-field check; `None` only when no such section exists. -/
def extractActionDataLegacy (structuredOutput : String) : Option PyDict :=
  match (pySplit structuredOutput "###").find? (fun sec => containsSub sec "ACTION_DATA") with
  | none => none
  | some sec =>
    some (((pySplit (pyTrim sec) "\n").drop 1).foldl (fun d line =>
      if containsSub line ":" then
        let kv := splitColon1 line
        dset d (pyTrim kv.1) (PyVal.s (pyTrim kv.2))
      else d) [])

/-! ## Analysis persistence (`store_analysis_in_supabase`, both versions) -/

/-- The action types that require a calendar action. -/
def calendarActionTypes : List String := ["SCHEDULE_MEETING", "SET_REMINDER"]

/-- `date` transform inside `SupabaseService.store_analysis_in_supabase`
(lines 135-139): only `today` / `tomorrow` are resolved. -/
def storeDateValue (c : Clock) (value : String) : String :=
  if pyLower value == "today" then isoDate c.date
  else if pyLower value == "tomorrow" then isoDate (nextDay c.date)
  else value

/-- `time` transform inside `SupabaseService.store_analysis_in_supabase`
(lines 140-147): `now`, or the o'clock rule with the night/evening bump
(no `pm` trigger and no `hour != 12` guard here).  `none` models the
uncaught `ValueError` of `int('')`, which aborts the whole store. -/
def storeTimeValue (c : Clock) (value : String) : Option String :=
  if pyLower value == "now" then some (clockHM c)
  else if containsSub (pyLower value) oclockStr then
    match intOfDigits (digitChars value) with
    | none => none
    | some h =>
      let h2 :=
        if containsSub (pyLower value) "night" || containsSub (pyLower value) "evening"
        then h + 12 else h
      some (pad2 h2 ++ ":00")
  else some value

/-- The inline `Action Data:` parsing loop of
`SupabaseService.store_analysis_in_supabase` (lines 114-149). -/
def storeParseActionData (c : Clock) (insights : String) : Option PyDict :=
  let actionSection := beforeFirst (afterFirst insights "Action Data:") "Thread Context:"
  (pySplit (pyTrim actionSection) "\n").foldl (fun od line =>
    match od with
    | none => none
    | some d =>
      if containsSub line ":" then
        let kv := splitColon1 line
        let k := pyTrim kv.1
        let v := pyTrim kv.2
        if k == "participants" then some (dset d k (PyVal.l (storeParticipants v)))
        else if k == "duration_minutes" then some (dset d k (PyVal.s (durationValue v)))
        else if k == "date" then some (dset d k (PyVal.s (storeDateValue c v)))
        else if k == "time" then (storeTimeValue c v).map (fun t => dset d k (PyVal.s t))
        else some (dset d k (PyVal.s v))
      else some d) (some [])

/-- The `action_data` dictionary assembled by
`SupabaseService.store_analysis_in_supabase`: parsed only for calendar
action types with the marker present, otherwise left `{}`. -/
def storeActionData (c : Clock) (actionType insights : String) : Option PyDict :=
  if calendarActionTypes.contains actionType then
    if containsSub insights "Action Data:" then storeParseActionData c insights
    else some []
  else some []

/-- The fields of the `analysis_data` argument that both store functions
read (with `dict.get` defaults already applied). -/
structure AnalysisInput where
  email_id : String
  thread_id : Option String
  summary : String
  insights : String
  action_type : String
  search_performed : Bool
  search_query : String
  search_results : Option String
  search_answer : String
  slack_notification_sent : Bool
  slack_channel : Option String
  slack_message_id : Option String

/-- The `analysis` row inserted by `SupabaseService.store_analysis_in_supabase`. -/
structure AnalysisRecord where
  email_id : String
  thread_id : Option String
  summary : String
  insights : String
  action_type : String
  action_data : Option PyDict
  calendar_status : Option String
  search_performed : Bool
  search_query : String
  search_results : Option String
  search_answer : String
  slack_notification_sent : Bool
  slack_channel : Option String
  slack_message_id : Option String
deriving DecidableEq

/-- `SupabaseService.store_analysis_in_supabase`: the row it inserts, or
`none` when the inline parse raises and the outer handler stores nothing. -/
def storeAnalysisRecord (c : Clock) (inp : AnalysisInput) : Option AnalysisRecord :=
  (storeActionData c inp.action_type inp.insights).map (fun ad =>
    { email_id := inp.email_id
      thread_id := inp.thread_id
      summary := inp.summary
      insights := inp.insights
      action_type := inp.action_type
      action_data := if ad.isEmpty then none else some ad
      calendar_status :=
        if calendarActionTypes.contains inp.action_type then some "PENDING" else none
      search_performed := inp.search_performed
      search_query := inp.search_query
      search_results := inp.search_results
      search_answer := inp.search_answer
      slack_notification_sent := inp.slack_notification_sent
      slack_channel := inp.slack_channel
      slack_message_id := inp.slack_message_id })

/-- The `analysis` row inserted by the module-level
`store_analysis_in_supabase` (the one `summarization_service.py` imports):
note there is no `calendar_status` field. -/
structure LegacyAnalysisRecord where
  email_id : String
  thread_id : Option String
  summary : String
  insights : String
  action_type : String
  action_data : Option PyDict
  search_performed : Bool
  search_query : String
  search_results : Option String
  search_answer : String
  slack_notification_sent : Bool
  slack_channel : Option String
  slack_message_id : Option String
deriving DecidableEq

/-- Module-level `store_analysis_in_supabase`: always inserts, with
`action_data` from the legacy extractor. -/
def legacyStoreAnalysisRecord (inp : AnalysisInput) : LegacyAnalysisRecord :=
  { email_id := inp.email_id
    thread_id := inp.thread_id
    summary := inp.summary
    insights := inp.insights
    action_type := inp.action_type
    action_data := extractActionDataLegacy inp.insights
    search_performed := inp.search_performed
    search_query := inp.search_query
    search_results := inp.search_results
    search_answer := inp.search_answer
    slack_notification_sent := inp.slack_notification_sent
    slack_channel := inp.slack_channel
    slack_message_id := inp.slack_message_id }

/-- The keys of the insert payload of `SupabaseService.store_analysis_in_supabase`
(source lines 152-167). -/
def classAnalysisRecordKeys : List String :=
  ["email_id", "thread_id", "summary", "insights", "action_type", "action_data",
   "calendar_status", "search_performed", "search_query", "search_results",
   "search_answer", "slack_notification_sent", "slack_channel", "slack_message_id"]

/-- The keys of the insert payload of the module-level
`store_analysis_in_supabase` (source lines 364-378): `calendar_status` is
never set, so the nullable column keeps its `NULL`. -/
def legacyAnalysisRecordKeys : List String :=
  ["email_id", "thread_id", "summary", "insights", "action_type", "action_data",
   "search_performed", "search_query", "search_results", "search_answer",
   "slack_notification_sent", "slack_channel", "slack_message_id"]

/-! ## Calendar Dispatcher (`calendar_handler.py`, `calender_services.py`) -/

/-- `is_valid_email` in `calendar_handler.py`:
`re.match(r'^[a-zA-Z0-9._%+-]+@[a-zA-Z0-9.-]+\.[a-zA-Z]\x7b2,\x7d$', email)`. -/
def isValidEmail (email : String) : Bool :=
  match pySplit email "@" with
  | [lo, dom] =>
    lo.length > 0 &&
    lo.toList.all (fun c =>
      c.isAlphanum || c == '.' || c == '_' || c == '%' || c == '+' || c == '-') &&
    (let ps := pySplit dom "."
     decide (ps.length ≥ 2) &&
     (let tld := ps.getLastD ""
      decide (tld.length ≥ 2) && tld.toList.all Char.isAlpha &&
      (let front := String.intercalate "." ps.dropLast
       front.length > 0 &&
       front.toList.all (fun c => c.isAlphanum || c == '.' || c == '-'))))
  | _ => false

/-- A row returned by `fetch_calendar_actions` (all such rows have
`calendar_status = 'PENDING'`). -/
structure CalAction where
  id : String
  action_type : String
  action_data : Option PyDict

/-- `process_calendar_actions`, participants/attendees validation step
(lines 33-43).  `none` models the `TypeError` of `re.match` on a
non-string `for_user`. -/
def handlerValidateParticipants (d : PyDict) : Option PyDict :=
  match dget d "participants" with
  | some (PyVal.l xs) => some (dset d "participants" (PyVal.l (xs.filter isValidEmail)))
  | some _ => some d
  | none =>
    match dget d "for_user" with
    | some (PyVal.s u) =>
      if isValidEmail u then some (dset d "participants" (PyVal.l [u]))
      else some (dset d "participants" (PyVal.l []))
    | some _ => none
    | none => some d

/-- `process_calendar_actions`, time fix-up (lines 46-47).  `none` models
the `KeyError` on a missing `time` key (uncaught until the per-action
handler, which marks the row `FAILED`) or `.lower()` on a non-string. -/
def handlerFixTime (c : Clock) (d : PyDict) : Option PyDict :=
  match dget d "time" with
  | some (PyVal.s t) =>
    if pyLower t == "none" || pyLower t == "not specified" then
      some (dset d "time" (PyVal.s (clockHM c)))
    else some d
  | some _ => none
  | none => none

/-- `process_calendar_actions`, date fix-up (lines 49-55): only phrases
containing `th` are touched; a failed ordinal parse falls back to the
current date (the `except ValueError` branch).  `none` models the
`KeyError` on a missing `date` key. -/
def handlerFixDate (c : Clock) (d : PyDict) : Option PyDict :=
  match dget d "date" with
  | some (PyVal.s ds) =>
    if containsSub ds "th" then
      match parseOrdinalDate ds with
      | some dd => some (dset d "date" (PyVal.s (isoDate dd)))
      | none => some (dset d "date" (PyVal.s (isoDate c.date)))
    else some d
  | some _ => none
  | none => none

/-- `process_calendar_actions`, `SET_REMINDER` adjustment (lines 61-65):
fixed 30-minute duration, `participants` overwritten with
`[action_data['for_user']]` (no validation; the extractor only ever stores
a string there, the non-string arm is dead). -/
def handlerReminderAdjust (d : PyDict) (actionType : String) : PyDict :=
  if actionType == "SET_REMINDER" then
    let d1 := dset d "duration_minutes" (PyVal.n 30)
    match dget d1 "for_user" with
    | some (PyVal.s u) => dset d1 "participants" (PyVal.l [u])
    | some _ => dset d1 "participants" (PyVal.l [])
    | none => d1
  else d

/-- Date branch of `CalendarService.schedule_event` (lines 76-83): `today`,
`tomorrow`, ordinal phrases containing `th` (a `ValueError` here is only
caught by the function-level handler: `none`), anything else unchanged. -/
def serviceNormalizeDate (c : Clock) (dateStr : String) : Option String :=
  if pyLower dateStr == "today" then some (isoDate c.date)
  else if pyLower dateStr == "tomorrow" then some (isoDate (nextDay c.date))
  else if containsSub (pyLower dateStr) "th" then (parseOrdinalDate dateStr).map isoDate
  else some dateStr

/-- Time branch of `CalendarService.schedule_event` (lines 86-98):
`none`/`now`/`not specified`, then the `pm` branch (`strptime '%I:%M %p'`,
`ValueError` => `none`), then the o'clock branch (digits of the phrase as
the hour, `+12` when night/evening/pm is mentioned and the hour is not 12),
anything else unchanged. -/
def serviceNormalizeTime (c : Clock) (timeStr : String) : Option String :=
  if pyLower timeStr == "none" || pyLower timeStr == "now" ||
      pyLower timeStr == "not specified" then
    some (clockHM c)
  else if containsSub (pyLower timeStr) "pm" then (parse12Hour timeStr).map renderHM
  else if containsSub (pyLower timeStr) oclockStr then
    match intOfDigits (digitChars timeStr) with
    | none => none
    | some h =>
      let lw := pyLower timeStr
      let h2 :=
        if (containsSub lw "night" || containsSub lw "evening" || containsSub lw "pm")
            && h != 12
        then h + 12 else h
      some (pad2 h2 ++ ":00")
  else some timeStr

/-- The event body handed to the calendar collaborator's insert:
`end = start + timedelta(minutes=durationMinutes)`. -/
structure CalEvent where
  summary : PyVal
  description : PyVal
  startDate : Date
  startHour : Nat
  startMinute : Nat
  durationMinutes : Nat
  location : PyVal
  attendees : List String
deriving DecidableEq

/-- `duration = int(action_data.get('duration_minutes', 60))`: `none`
models the `ValueError`/`TypeError` of `int` on a non-numeric value. -/
def eventDuration (d : PyDict) : Option Nat :=
  match dget d "duration_minutes" with
  | none => some 60
  | some (PyVal.n k) => some k
  | some (PyVal.s v) => pyInt v
  | some (PyVal.l _) => none

/-- Attendee list (lines 124-130): present-and-truthy `participants`, a
list elementwise or a single non-list value wrapped in a list. -/
def eventAttendees (d : PyDict) : List String :=
  match dget d "participants" with
  | some (PyVal.l xs) => xs
  | some (PyVal.s u) => if u == "" then [] else [u]
  | some (PyVal.n k) => if k == 0 then [] else [toString k]
  | none => []

/-- `CalendarService.schedule_event` up to the provider insert: the event
body it submits, or `none` when any step raises (the function then returns
`(False, message)`). -/
def scheduleEvent (c : Clock) (d : PyDict) : Option CalEvent :=
  match dget d "date" with
  | some (PyVal.s dateRaw) =>
    match serviceNormalizeDate c dateRaw with
    | none => none
    | some dateStr =>
      match dget d "time" with
      | some (PyVal.s timeRaw) =>
        match serviceNormalizeTime c timeRaw with
        | none => none
        | some timeStr =>
          match parseDateTimeHM (dateStr ++ " " ++ timeStr) with
          | none => none
          | some sdt =>
            match eventDuration d with
            | none => none
            | some dur =>
              match dget d "title" with
              | none => none
              | some title =>
                some { summary := title
                       description := (dget d "description").getD (PyVal.s "No description provided")
                       startDate := sdt.1
                       startHour := sdt.2.1
                       startMinute := sdt.2.2
                       durationMinutes := dur
                       location := (dget d "location").getD (PyVal.s "virtual")
                       attendees := eventAttendees d }
      | some _ => none
      | none => none
  | some _ => none
  | none => none

/-- Outcome of one iteration of `process_calendar_actions` for one row:
the event submitted to the provider (if reached) and the
`calendar_status` written by `update_calendar_action_status` (if any). -/
structure ActionOutcome where
  submitted : Option CalEvent
  statusUpdate : Option String
deriving DecidableEq

/-- One iteration of `CalendarHandler.process_calendar_actions`: skip rows
with empty/missing `action_data`; an exception inside the body is caught
per-action and marks the row `FAILED`; otherwise `schedule_event` decides
`COMPLETED`/`FAILED` (the provider insert itself is assumed to succeed). -/
def processCalendarAction (c : Clock) (a : CalAction) : ActionOutcome :=
  let d0 := a.action_data.getD []
  if d0.isEmpty then ⟨none, none⟩
  else
    match handlerValidateParticipants d0 with
    | none => ⟨none, some "FAILED"⟩
    | some d1 =>
      match handlerFixTime c d1 with
      | none => ⟨none, some "FAILED"⟩
      | some d2 =>
        match handlerFixDate c d2 with
        | none => ⟨none, some "FAILED"⟩
        | some d3 =>
          let d4 := handlerReminderAdjust d3 a.action_type
          match scheduleEvent c d4 with
          | some ev => ⟨some ev, some "COMPLETED"⟩
          | none => ⟨none, some "FAILED"⟩

/-- The row's `calendar_status` after the iteration: rows reach the loop
with `PENDING`, and keep it when no status update is written. -/
def finalCalendarStatus (o : ActionOutcome) : String := o.statusUpdate.getD "PENDING"

/-! ## Analysis Router response parsing (`summarization_service.py`) -/

/-- The parsed six-section result of `parse_llama_response`, with the
initial defaults from lines 77-86. -/
structure LlamaParsed where
  summary : String
  insights : String
  action_type : String
  action_data : String
  thread_context : String
  search_required : Bool
  search_query : String
  context_needed : String
deriving DecidableEq

/-- `s.split(marker)[1].split("###")[0].strip()`. -/
def sectionAfter (s marker : String) : String :=
  pyTrim (beforeFirst (afterFirst s marker) "###")

/-- One line of the `### SEARCH_REQUIRED` section body (lines 116-122):
`required:` / `search_query:` / `context_needed:` handled by `if`/`elif`. -/
def searchLineStep (r : LlamaParsed) (line : String) : LlamaParsed :=
  if containsSub line "required:" then
    { r with search_required := containsSub (pyLower line) "true" }
  else if containsSub line "search_query:" then
    { r with search_query := pyTrim (afterFirst line "search_query:") }
  else if containsSub line "context_needed:" then
    { r with context_needed := pyTrim (afterFirst line "context_needed:") }
  else r

/-- The first five section blocks of `parse_llama_response` (lines 88-111):
the result starts from the defaults of lines 77-86 and each named section's
field is overwritten exactly when its marker occurs (the five `if` blocks
write disjoint fields, so they are rendered field-wise here). -/
def parseSections (s : String) : LlamaParsed :=
  { summary := if containsSub s "### SUMMARY" then sectionAfter s "### SUMMARY" else ""
    insights := if containsSub s "### INSIGHTS" then sectionAfter s "### INSIGHTS" else ""
    action_type := if containsSub s "### ACTION_TYPE" then
      sectionAfter s "### ACTION_TYPE" else "NO_ACTION"
    action_data := if containsSub s "### ACTION_DATA" then
      sectionAfter s "### ACTION_DATA" else ""
    thread_context := if containsSub s "### THREAD_CONTEXT" then
      sectionAfter s "### THREAD_CONTEXT" else ""
    search_required := false
    search_query := ""
    context_needed := "" }

/-- `parse_llama_response`: the five section blocks, then the
`### SEARCH_REQUIRED` line loop; the body is total (its `try/except` never
fires). -/
def parseLlamaResponse (s : String) : LlamaParsed :=
  if containsSub s "### SEARCH_REQUIRED" then
    (pySplit (sectionAfter s "### SEARCH_REQUIRED") "\n").foldl searchLineStep
      (parseSections s)
  else parseSections s

/-! ## Shared concrete inputs used by the theorems below -/

/-- A fixed instant: 2025-04-10, 10:30. -/
def clock0 : Clock := ⟨⟨2025, 4, 10⟩, 10, 30⟩

/-- A meeting analysis whose insights carry no `Action Data:` section. -/
def sampleMeetingInput : AnalysisInput :=
  ⟨"e1", none, "s", "Analysis only", "SCHEDULE_MEETING",
   false, "", none, "", false, none, none⟩

/-- A model response with a well-formed `Action Data:` section holding all
required fields. -/
def sampleActionText : String :=
  "Action Data:\ndate: today\ntime: now\ntitle: Sync\ndescription: w"

/-- A pending reminder row whose `action_data` carries `for_user` together
with the required `date`/`time`/`title`/`description` fields. -/
def fullReminderAction : CalAction :=
  ⟨"a1", "SET_REMINDER",
   some [("for_user", PyVal.s "a@x.com"), ("date", PyVal.s "today"),
         ("time", PyVal.s "now"), ("title", PyVal.s "Standup"),
         ("description", PyVal.s "d")]⟩

/-- A pending reminder row whose `action_data` is exactly
`{for_user: "a@x.com"}`. -/
def bareReminderAction : CalAction :=
  ⟨"a2", "SET_REMINDER", some [("for_user", PyVal.s "a@x.com")]⟩

/-- A send collaborator that fails twice, then succeeds on the third call. -/
def mockFailsTwice : Nat → Bool := fun i => i == 2

/-- A user who declines every confirmation prompt. -/
def declineAll : Nat → String := fun _ => "no"

/-- The time phrase `9 o'clock at night`. -/
def nineOclockNight : String := "9 " ++ oclockStr ++ " at night"

/-- The time phrase `9 o'clock pm`. -/
def nineOclockPm : String := "9 " ++ oclockStr ++ " pm"

/-! ## Theorems -/

/-- Helper: the `### SEARCH_REQUIRED` line loop only writes the three
search fields, leaving the five section texts unchanged. -/
theorem searchFold_preserves (lines : List String) (r : LlamaParsed) :
    ((lines.foldl searchLineStep r).summary = r.summary) ∧
    ((lines.foldl searchLineStep r).insights = r.insights) ∧
    ((lines.foldl searchLineStep r).action_type = r.action_type) ∧
    ((lines.foldl searchLineStep r).action_data = r.action_data) ∧
    ((lines.foldl searchLineStep r).thread_context = r.thread_context) := by
  induction lines generalizing r with
  | nil => simp
  | cons l rest ih =>
    have hstep : (searchLineStep r l).summary = r.summary ∧
        (searchLineStep r l).insights = r.insights ∧
        (searchLineStep r l).action_type = r.action_type ∧
        (searchLineStep r l).action_data = r.action_data ∧
        (searchLineStep r l).thread_context = r.thread_context := by
      unfold searchLineStep
      split <;> (try (split <;> try split)) <;> exact ⟨rfl, rfl, rfl, rfl, rfl⟩
    have h := ih (searchLineStep r l)
    simp only [List.foldl_cons]
    exact ⟨h.1.trans hstep.1, h.2.1.trans hstep.2.1, h.2.2.1.trans hstep.2.2.1,
           h.2.2.2.1.trans hstep.2.2.2.1, h.2.2.2.2.trans hstep.2.2.2.2⟩

/-- Claim C9 (code bug): for the exact value shape the extractor's own
comment documents, `duration_minutes` is transformed by concatenating
EVERY digit character of the value (`int(''.join(filter(str.isdigit, ...)))`),
storing `"601"` for `"60 (assuming a 1-hour meeting)"`, while the
documented first-run-of-digits behaviour would store `"60"`. -/
theorem durationValue_concat_digits_bug :
    durationValue "60 (assuming a 1-hour meeting)" = "601" ∧
    specDurationValue "60 (assuming a 1-hour meeting)" = "60" ∧
    durationValue "no digits at all" = "60" := by decide

/-- Claim C10: a pending row whose fetched `action_data` is missing or the
empty dict is skipped by `process_calendar_actions`: no event reaches the
calendar collaborator, no status update is written, and the row's
`calendar_status` stays `PENDING`. -/
theorem emptyActionData_skipped (c : Clock) (a : CalAction)
    (h : a.action_data = none ∨ a.action_data = some []) :
    processCalendarAction c a = ⟨none, none⟩ ∧
    finalCalendarStatus (processCalendarAction c a) = "PENDING" := by
  rcases h with h | h <;> simp [processCalendarAction, finalCalendarStatus, h]

/-- Witness for C10 at a concrete row with `action_data = None`. -/
theorem emptyActionData_skipped_witness :
    (⟨"a9", "SCHEDULE_MEETING", none⟩ : CalAction).action_data = none ∧
    processCalendarAction clock0 ⟨"a9", "SCHEDULE_MEETING", none⟩ = ⟨none, none⟩ := by
  exact ⟨rfl, (emptyActionData_skipped clock0 ⟨"a9", "SCHEDULE_MEETING", none⟩ (Or.inl rfl)).1⟩

/-- Claim C5, counterexample: on the claim's literal input
`action_data = {for_user: "a@x.com"}`, the handler's `action_data['time']`
lookup raises `KeyError`, the per-action handler marks the row `FAILED`,
and no event is built or submitted — not the claimed 30-minute event with
participants `["a@x.com"]`. -/
theorem reminder_bare_action_cex :
    processCalendarAction clock0 bareReminderAction =
      ⟨none, some "FAILED"⟩ ∧
    finalCalendarStatus (processCalendarAction clock0 bareReminderAction) = "FAILED" := by
  decide

/-- Claim C5 (amended): when the reminder's `action_data` carries `for_user`
together with the required `date`/`time`/`title`/`description` fields, the
dispatcher submits a calendar event whose attendee list is exactly
`["a@x.com"]` and whose duration is the fixed 30 minutes. -/
theorem reminder_full_action_event :
    (processCalendarAction clock0 fullReminderAction).submitted =
      some ⟨PyVal.s "Standup", PyVal.s "d", ⟨2025, 4, 10⟩, 10, 30, 30,
            PyVal.s "virtual", ["a@x.com"]⟩ ∧
    (processCalendarAction clock0 fullReminderAction).statusUpdate = some "COMPLETED" := by
  decide

/-- Claim C6, counterexample: the date phrase `next week` (not today, not
tomorrow, no ordinal) is passed through UNCHANGED by both the handler's
date fix-up and `schedule_event`'s date branch — there is no fallback to
the current date (`2025-04-10` here). -/
theorem normalizeDate_no_fallback_cex :
    handlerFixDate clock0 [("date", PyVal.s "next week")] =
      some [("date", PyVal.s "next week")] ∧
    serviceNormalizeDate clock0 "next week" = some "next week" ∧
    isoDate clock0.date = "2025-04-10" ∧ "next week" ≠ "2025-04-10" := by decide

/-- Claim C6 (amended): only date phrases containing `th` whose ordinal
parse fails fall back to the current date (in the handler's fix-up, which
never raises); any other unrecognized phrase is passed through unchanged by
both the handler and `schedule_event`'s date branch. -/
theorem normalizeDate_policy :
    (∀ (c : Clock) (d : PyDict) (s : String), dget d "date" = some (PyVal.s s) →
       containsSub s "th" = false → handlerFixDate c d = some d) ∧
    (∀ (c : Clock) (d : PyDict) (s : String), dget d "date" = some (PyVal.s s) →
       containsSub s "th" = true → parseOrdinalDate s = none →
       handlerFixDate c d = some (dset d "date" (PyVal.s (isoDate c.date)))) ∧
    (∀ (c : Clock) (s : String), pyLower s ≠ "today" → pyLower s ≠ "tomorrow" →
       containsSub (pyLower s) "th" = false → serviceNormalizeDate c s = some s) := by
  refine ⟨?_, ?_, ?_⟩
  · intro c d s hd hth
    simp [handlerFixDate, hd, hth]
  · intro c d s hd hth hp
    simp [handlerFixDate, hd, hth, hp]
  · intro c s h1 h2 h3
    have b1 : (pyLower s == "today") = false := beq_eq_false_iff_ne.mpr h1
    have b2 : (pyLower s == "tomorrow") = false := beq_eq_false_iff_ne.mpr h2
    simp [serviceNormalizeDate, b1, b2, h3]

/-- Witness for C6 at concrete phrases: `june 5` passes through unchanged,
`thursday` (contains `th`, ordinal parse fails) falls back to the current
date. -/
theorem normalizeDate_policy_witness :
    handlerFixDate clock0 [("date", PyVal.s "june 5")] =
      some [("date", PyVal.s "june 5")] ∧
    handlerFixDate clock0 [("date", PyVal.s "thursday")] =
      some (dset [("date", PyVal.s "thursday")] "date" (PyVal.s (isoDate clock0.date))) ∧
    serviceNormalizeDate clock0 "june 5" = some "june 5" := by
  refine ⟨?_, ?_, ?_⟩
  · exact normalizeDate_policy.1 clock0 [("date", PyVal.s "june 5")] "june 5"
      (by decide) (by decide)
  · exact normalizeDate_policy.2.1 clock0 [("date", PyVal.s "thursday")] "thursday"
      (by decide) (by decide) (by decide)
  · exact normalizeDate_policy.2.2 clock0 "june 5" (by decide) (by decide) (by decide)

/-- Claim C7, counterexample: the phrase `9 o'clock pm` contains `o'clock`,
but because `pm` is checked first it is routed to the `%I:%M %p` parse,
which raises; `schedule_event` fails instead of producing the `21:00` the
claimed o'clock rule (which lists `pm` as a `+12` trigger) would require. -/
theorem normalizeTime_oclock_pm_cex :
    containsSub (pyLower nineOclockPm) oclockStr = true ∧
    serviceNormalizeTime clock0 nineOclockPm = none ∧
    serviceNormalizeTime clock0 nineOclockPm ≠ some "21:00" := by decide

/-- Claim C7 (amended): for time phrases containing `o'clock` but not `pm`
(the `pm` branch is checked first, so the `pm` trigger inside the o'clock
rule is unreachable), normalization concatenates the digit characters as
the hour, adds 12 when night/evening is mentioned unless the hour is 12,
and zero-pads to `HH:00`; the two documented examples hold:
`9 o'clock at night` maps to `21:00` and `2:00 PM` (via the `pm` branch)
to `14:00`. -/
theorem normalizeTime_policy :
    (∀ (c : Clock) (s : String) (h : Nat),
       containsSub (pyLower s) oclockStr = true →
       containsSub (pyLower s) "pm" = false →
       pyLower s ≠ "none" → pyLower s ≠ "now" → pyLower s ≠ "not specified" →
       intOfDigits (digitChars s) = some h →
       serviceNormalizeTime c s =
         some (pad2 (if (containsSub (pyLower s) "night" ||
                         containsSub (pyLower s) "evening") && h != 12
                     then h + 12 else h) ++ ":00")) ∧
    serviceNormalizeTime clock0 nineOclockNight = some "21:00" ∧
    serviceNormalizeTime clock0 "2:00 PM" = some "14:00" := by
  refine ⟨?_, by decide, by decide⟩
  intro c s h hoc hpm h1 h2 h3 hdig
  have b1 : (pyLower s == "none") = false := beq_eq_false_iff_ne.mpr h1
  have b2 : (pyLower s == "now") = false := beq_eq_false_iff_ne.mpr h2
  have b3 : (pyLower s == "not specified") = false := beq_eq_false_iff_ne.mpr h3
  simp [serviceNormalizeTime, b1, b2, b3, hpm, hoc, hdig]

/-- Claim C8, counterexample: the documented placeholder
`"No summary available."` appears nowhere; a response with no `### SUMMARY`
section gets the empty string as its summary. -/
theorem parseLlama_placeholder_cex :
    (parseLlamaResponse "").summary = "" ∧
    (parseLlamaResponse "").summary ≠ "No summary available." ∧
    (parseLlamaResponse "").action_type = "NO_ACTION" := by decide

/-- Claim C8 (amended): `parse_llama_response` never raises, and a missing
named section gets its fixed default — the empty string for
summary/insights/action_data/thread_context, `"NO_ACTION"` for the action
type, and `false`/empty strings for the search fields (not the placeholder
strings the spec names). -/
theorem parseLlama_missing_section_defaults (s : String) :
    (containsSub s "### SUMMARY" = false → (parseLlamaResponse s).summary = "") ∧
    (containsSub s "### INSIGHTS" = false → (parseLlamaResponse s).insights = "") ∧
    (containsSub s "### ACTION_TYPE" = false →
      (parseLlamaResponse s).action_type = "NO_ACTION") ∧
    (containsSub s "### ACTION_DATA" = false → (parseLlamaResponse s).action_data = "") ∧
    (containsSub s "### THREAD_CONTEXT" = false →
      (parseLlamaResponse s).thread_context = "") ∧
    (containsSub s "### SEARCH_REQUIRED" = false →
      (parseLlamaResponse s).search_required = false ∧
      (parseLlamaResponse s).search_query = "" ∧
      (parseLlamaResponse s).context_needed = "") := by
  have hsec : (parseSections s).search_required = false ∧
      (parseSections s).search_query = "" ∧ (parseSections s).context_needed = "" :=
    ⟨rfl, rfl, rfl⟩
  have hsum : (parseLlamaResponse s).summary = (parseSections s).summary := by
    unfold parseLlamaResponse
    split
    · exact (searchFold_preserves _ _).1
    · rfl
  have hins : (parseLlamaResponse s).insights = (parseSections s).insights := by
    unfold parseLlamaResponse
    split
    · exact (searchFold_preserves _ _).2.1
    · rfl
  have hat : (parseLlamaResponse s).action_type = (parseSections s).action_type := by
    unfold parseLlamaResponse
    split
    · exact (searchFold_preserves _ _).2.2.1
    · rfl
  have had : (parseLlamaResponse s).action_data = (parseSections s).action_data := by
    unfold parseLlamaResponse
    split
    · exact (searchFold_preserves _ _).2.2.2.1
    · rfl
  have htc : (parseLlamaResponse s).thread_context = (parseSections s).thread_context := by
    unfold parseLlamaResponse
    split
    · exact (searchFold_preserves _ _).2.2.2.2
    · rfl
  refine ⟨?_, ?_, ?_, ?_, ?_, ?_⟩
  · intro h
    rw [hsum]
    simp [parseSections, h]
  · intro h
    rw [hins]
    simp [parseSections, h]
  · intro h
    rw [hat]
    simp [parseSections, h]
  · intro h
    rw [had]
    simp [parseSections, h]
  · intro h
    rw [htc]
    simp [parseSections, h]
  · intro h
    have e : parseLlamaResponse s = parseSections s := by
      unfold parseLlamaResponse
      simp [h]
    rw [e]
    exact hsec

/-- Witness for C8 at the sectionless response `hello`. -/
theorem parseLlama_missing_section_defaults_witness :
    containsSub "hello" "### SUMMARY" = false ∧
    (parseLlamaResponse "hello").summary = "" ∧
    (parseLlamaResponse "hello").action_type = "NO_ACTION" := by
  refine ⟨by decide, ?_, ?_⟩
  · exact (parseLlama_missing_section_defaults "hello").1 (by decide)
  · exact (parseLlama_missing_section_defaults "hello").2.2.1 (by decide)

/-- Claim C1, counterexample: the module-level `store_analysis_in_supabase`
(the one the analysis pipeline imports) persists records whose insert
payload has NO `calendar_status` key at all, so a `SCHEDULE_MEETING` record
stored by it keeps a null `calendar_status` instead of `PENDING`. -/
theorem storeAnalysis_legacy_no_calendar_status_cex :
    (legacyStoreAnalysisRecord sampleMeetingInput).action_type = "SCHEDULE_MEETING" ∧
    calendarActionTypes.contains "SCHEDULE_MEETING" = true ∧
    legacyAnalysisRecordKeys.contains "calendar_status" = false ∧
    classAnalysisRecordKeys.contains "calendar_status" = true := by decide

/-- Claim C1 (amended): every record persisted by
`SupabaseService.store_analysis_in_supabase` has `calendar_status =
'PENDING'` exactly when its action type is `SCHEDULE_MEETING` or
`SET_REMINDER`, and null otherwise; the module-level
`store_analysis_in_supabase` never sets the field. -/
theorem storeAnalysis_calendar_status_iff (c : Clock) (inp : AnalysisInput)
    (rec : AnalysisRecord) (h : storeAnalysisRecord c inp = some rec) :
    rec.calendar_status =
      (if calendarActionTypes.contains inp.action_type then some "PENDING" else none) := by
  unfold storeAnalysisRecord at h
  cases hs : storeActionData c inp.action_type inp.insights with
  | none => rw [hs] at h; simp at h
  | some ad =>
    rw [hs] at h
    simp at h
    subst h
    simp

/-- Witness for C1 at a concrete meeting analysis. -/
theorem storeAnalysis_calendar_status_iff_witness :
    ∃ rec, storeAnalysisRecord clock0 sampleMeetingInput = some rec ∧
      rec.calendar_status = some "PENDING" := by
  have h : storeAnalysisRecord clock0 sampleMeetingInput =
      some { email_id := "e1", thread_id := none, summary := "s",
             insights := "Analysis only", action_type := "SCHEDULE_MEETING",
             action_data := none, calendar_status := some "PENDING",
             search_performed := false, search_query := "", search_results := none,
             search_answer := "", slack_notification_sent := false,
             slack_channel := none, slack_message_id := none } := by decide
  refine ⟨_, h, ?_⟩
  rw [storeAnalysis_calendar_status_iff clock0 sampleMeetingInput _ h]
  decide

/-- Claim C2, counterexample: the module-level `extract_action_data` has no
required-field check — on a response whose action-data section only carries
`title`, it still returns the mapping instead of `None`. -/
theorem extractActionData_legacy_no_required_check_cex :
    extractActionDataLegacy "### ACTION_DATA\ntitle: Sync" =
      some [("title", PyVal.s "Sync")] ∧
    requiredFields.all (fun f => dhas [("title", PyVal.s "Sync")] f) = false := by decide

/-- Claim C2 (amended): `SupabaseService.extract_action_data` returns the
parsed mapping exactly when all of `date`/`time`/`title`/`description` are
present, returns `None` whenever any is missing (or the `Action Data:`
marker is absent), and the caller in `update_calendar_actions.py` writes no
update for a `None` extraction; the module-level `extract_action_data` does
none of this checking. -/
theorem extractActionData_required_fields :
    (∀ text d, extractActionData text = some d →
       d = extractParsedDict text ∧ requiredFields.all (fun f => dhas d f) = true) ∧
    (∀ text, requiredFields.all (fun f => dhas (extractParsedDict text) f) = false →
       extractActionData text = none) ∧
    (∀ text, extractActionData text = none → updateActionWrite text = none) := by
  refine ⟨?_, ?_, ?_⟩
  · intro text d h
    by_cases h1 : containsSub text "Action Data:" = true
    · by_cases h2 : requiredFields.all (fun f => dhas (extractParsedDict text) f) = true
      · simp only [extractActionData, h1, h2, if_true, Option.some.injEq] at h
        exact ⟨h.symm, h ▸ h2⟩
      · simp [extractActionData, h1, h2] at h
    · simp [extractActionData, h1] at h
  · intro text h2
    unfold extractActionData
    split
    · simp [h2]
    · rfl
  · intro text h
    simp [updateActionWrite, h]

/-- Witness for C2 at a response carrying all four required fields. -/
theorem extractActionData_required_fields_witness :
    ∃ d, extractActionData sampleActionText = some d ∧
      requiredFields.all (fun f => dhas d f) = true := by
  have h : extractActionData sampleActionText =
      some [("date", PyVal.s "today"), ("time", PyVal.s "now"),
            ("title", PyVal.s "Sync"), ("description", PyVal.s "w")] := by decide
  exact ⟨_, h, (extractActionData_required_fields.1 sampleActionText _ h).2⟩

/-- Witness for C7 at `9 o'clock at night` with hour 9. -/
theorem normalizeTime_policy_witness :
    intOfDigits (digitChars nineOclockNight) = some 9 ∧
    serviceNormalizeTime clock0 nineOclockNight =
      some (pad2 (if (containsSub (pyLower nineOclockNight) "night" ||
                      containsSub (pyLower nineOclockNight) "evening") && 9 != 12
                  then 9 + 12 else 9) ++ ":00") := by
  refine ⟨by decide, ?_⟩
  exact normalizeTime_policy.1 clock0 nineOclockNight 9 (by decide) (by decide)
    (by decide) (by decide) (by decide) (by decide)

/-- Claim C3: `process_reply` makes at most 3 send attempts; when all three
fail it marks the stored row `FAILED` with the error message
`Failed after 3 attempts` and returns failure; the first successful attempt
marks the row `SENT` with the timestamp and returns success immediately,
with `k + 1` send calls when attempt `k` is the first to succeed. -/
theorem processReply_retry_policy (rc : Bool) (inputs : Nat → String)
    (transmit : Nat → Bool) (now : Nat) :
    (processReplySend rc inputs transmit now).sendCalls ≤ 3 ∧
    ((∀ i, i < 3 → (sendReply rc (inputs i) (transmit i)).1 = false) →
      (processReplySend rc inputs transmit now).success = false ∧
      (processReplySend rc inputs transmit now).record.status = "FAILED" ∧
      (processReplySend rc inputs transmit now).record.error_message =
        some "Failed after 3 attempts") ∧
    (∀ k, k < 3 → (sendReply rc (inputs k) (transmit k)).1 = true →
      (∀ i, i < k → (sendReply rc (inputs i) (transmit i)).1 = false) →
      (processReplySend rc inputs transmit now).success = true ∧
      (processReplySend rc inputs transmit now).record.status = "SENT" ∧
      (processReplySend rc inputs transmit now).record.sent_at = some now ∧
      (processReplySend rc inputs transmit now).sendCalls = k + 1) := by
  refine ⟨?_, ?_, ?_⟩
  · cases h0 : (sendReply rc (inputs 0) (transmit 0)).1 <;>
      cases h1 : (sendReply rc (inputs 1) (transmit 1)).1 <;>
      cases h2 : (sendReply rc (inputs 2) (transmit 2)).1 <;>
      simp [processReplySend, maxRetries, sendLoop, h0, h1, h2]
  · intro hall
    have h0 := hall 0 (by omega)
    have h1 := hall 1 (by omega)
    have h2 := hall 2 (by omega)
    refine ⟨?_, ?_, ?_⟩ <;>
      simp [processReplySend, maxRetries, sendLoop, h0, h1, h2,
            updateReplyStatus, storedReply] <;> decide
  · intro k hk hks hprev
    interval_cases k
    · refine ⟨?_, ?_, ?_, ?_⟩ <;>
        simp [processReplySend, maxRetries, sendLoop, hks,
              updateReplyStatus, storedReply]
    · have h0 := hprev 0 (by omega)
      refine ⟨?_, ?_, ?_, ?_⟩ <;>
        simp [processReplySend, maxRetries, sendLoop, h0, hks,
              updateReplyStatus, storedReply]
    · have h0 := hprev 0 (by omega)
      have h1 := hprev 1 (by omega)
      refine ⟨?_, ?_, ?_, ?_⟩ <;>
        simp [processReplySend, maxRetries, sendLoop, h0, h1, hks,
              updateReplyStatus, storedReply]

/-- Witness for C3: a collaborator that fails twice then succeeds gives
success, a `SENT` row, and exactly 3 send attempts. -/
theorem processReply_retry_policy_witness :
    (sendReply false "" (mockFailsTwice 2)).1 = true ∧
    (processReplySend false (fun _ => "") mockFailsTwice 5).success = true ∧
    (processReplySend false (fun _ => "") mockFailsTwice 5).record.status = "SENT" ∧
    (processReplySend false (fun _ => "") mockFailsTwice 5).sendCalls = 3 := by
  have h := (processReply_retry_policy false (fun _ => "") mockFailsTwice 5).2.2 2
    (by omega) (by decide) (by intro i hi; interval_cases i <;> decide)
  exact ⟨by decide, h.1, h.2.1, h.2.2.2⟩

/-- Claim C4, counterexample: when confirmation is required and the user
declines every prompt, the operation does NOT abort leaving the row
`PENDING` — each decline counts as a failed attempt, and after the retry
budget the row is marked `FAILED` (though nothing was ever transmitted). -/
theorem processReply_decline_marks_failed_cex :
    (processReplySend true declineAll (fun _ => true) 7).record.status = "FAILED" ∧
    (processReplySend true declineAll (fun _ => true) 7).record.status ≠ "PENDING" ∧
    (processReplySend true declineAll (fun _ => true) 7).transmissions = 0 ∧
    (processReplySend true declineAll (fun _ => true) 7).success = false := by decide

/-- Claim C4 (amended): a declined confirmation aborts that attempt before
transmission (`send_reply` returns `False` without reaching the provider),
but `process_reply` treats it as a failed attempt: with every prompt
declined, no message is transmitted and after 3 attempts the stored row is
marked `FAILED` — it does not remain `PENDING`. -/
theorem processReply_decline_policy (inputs : Nat → String) (transmit : Nat → Bool)
    (now : Nat) (h : ∀ i, i < 3 → confirmAccepted (inputs i) = false) :
    (processReplySend true inputs transmit now).transmissions = 0 ∧
    (processReplySend true inputs transmit now).success = false ∧
    (processReplySend true inputs transmit now).record.status = "FAILED" := by
  have s0 : sendReply true (inputs 0) (transmit 0) = (false, false) := by
    simp [sendReply, h 0 (by omega)]
  have s1 : sendReply true (inputs 1) (transmit 1) = (false, false) := by
    simp [sendReply, h 1 (by omega)]
  have s2 : sendReply true (inputs 2) (transmit 2) = (false, false) := by
    simp [sendReply, h 2 (by omega)]
  refine ⟨?_, ?_, ?_⟩ <;>
    simp [processReplySend, maxRetries, sendLoop, s0, s1, s2,
          updateReplyStatus, storedReply]

/-- Witness for C4 with a user who answers `no` to every prompt. -/
theorem processReply_decline_policy_witness :
    confirmAccepted "no" = false ∧
    (processReplySend true (fun _ => "no") (fun _ => true) 11).record.status =
      "FAILED" := by
  refine ⟨by decide, ?_⟩
  exact (processReply_decline_policy (fun _ => "no") (fun _ => true) 11
    (fun i _ => (by decide : confirmAccepted "no" = false))).2.2

end EmailPipeline
